import Mathlib

/-!
Verification of the GoToSocial inbound side-effect pipeline
(`internal/processing/workers`): notification deduplication and creation
(`Surface.Notify` and the `notify*` surface functions), the two dispatcher
entry points (`ProcessFromFediAPI` / `ProcessFromClientAPI`), and the
side-effect ordering of the `DeleteStatus`, `CreateBlock`, `CreatePollVote`
and `MoveAccount` handlers.

The embedding is shallow: the notification database is a list of
notification rows, fallible collaborator calls (storage, federation
transport, realtime push) are driven by explicit boolean error oracles,
and each modelled function returns its result together with a trace of the
collaborator calls it issued, in order.
-/

namespace GtS

/-- Modelled from the spec: notification types carried by
`gtsmodel.NotificationType` (the gtsmodel package is not part of the
sources under review; only the distinct constants used by the pipeline
matter here). -/
inductive NotificationType
  | mention
  | followRequest
  | follow
  | fave
  | reblog
  | poll
  | signup
  deriving DecidableEq, Repr

/-- Modelled from the spec: the string name of a notification type, as used
when building the lock key (`string(notificationType)` in Go). -/
def NotificationType.str : NotificationType → String
  | .mention => "mention"
  | .followRequest => "follow_request"
  | .follow => "follow"
  | .fave => "favourite"
  | .reblog => "reblog"
  | .poll => "poll"
  | .signup => "admin.sign_up"

/-- Modelled from the spec: the fields of `gtsmodel.Account` read by the
pipeline. An account is remote exactly when its domain is nonempty. -/
structure Account where
  id : String
  uri : String
  domain : String
  deriving DecidableEq, Repr

/-- Modelled from the spec: `Account.IsRemote` (remote accounts have a
nonempty domain; notifications are a local-account-only concept). -/
def Account.IsRemote (a : Account) : Bool :=
  a.domain != ""

/-- A notification row: `gtsmodel.Notification` restricted to the fields
this pipeline reads and writes. -/
structure Notification where
  id : String
  notificationType : NotificationType
  targetAccountID : String
  originAccountID : String
  statusID : String
  deriving DecidableEq, Repr

/-- The notification table of the storage collaborator. -/
abbrev NotifDB := List Notification

/-- Does notification `n` have exactly the identifying tuple
(type, target account ID, origin account ID, status ID)? -/
def notifMatches (t : NotificationType) (target origin statusID : String)
    (n : Notification) : Bool :=
  n.notificationType == t && n.targetAccountID == target &&
    n.originAccountID == origin && n.statusID == statusID

/-- Modelled from the spec: `DB.GetNotification` — look a notification up
by its identifying tuple; `none` is the distinguished "no rows" condition
(`db.ErrNoEntries`). -/
def getNotification (db : NotifDB) (t : NotificationType)
    (target origin statusID : String) : Option Notification :=
  db.find? (notifMatches t target origin statusID)

/-- Modelled from the spec: `DB.PutNotification` — persist a new
notification row. -/
def putNotification (db : NotifDB) (n : Notification) : NotifDB :=
  db ++ [n]

/-- Modelled from the spec: `DB.DeleteNotificationByID`. -/
def deleteNotificationByID (db : NotifDB) (nid : String) : NotifDB :=
  db.filter (fun n => n.id != nid)

/-- How many persisted notifications carry the given identifying tuple. -/
def countNotifs (db : NotifDB) (t : NotificationType)
    (target origin statusID : String) : Nat :=
  db.countP (notifMatches t target origin statusID)

/-- The deduplication invariant: at most one persisted notification per
(type, target, origin, status) tuple. -/
def dedupInv (db : NotifDB) : Prop :=
  ∀ t target origin statusID, countNotifs db t target origin statusID ≤ 1

/-- Model of `getNotifyLockURI`: the deterministic per-key lock name, with the
status segment omitted when the status ID is empty. -/
def getNotifyLockURI (notificationType : NotificationType)
    (targetAccount originAccount : Account) (statusID : String) : String :=
  "notification:?" ++ ("type=" ++ notificationType.str)
    ++ ("&target=" ++ targetAccount.uri)
    ++ ("&origin=" ++ originAccount.uri)
    ++ (if statusID != "" then "&statusID=" ++ statusID else "")

/-- One collaborator call issued by the notification surface, in trace
order. -/
inductive Event
  | lock (uri : String)
  | unlock (uri : String)
  | getNotif (t : NotificationType) (target origin statusID : String)
  | putNotif (n : Notification)
  | deleteNotif (nid : String)
  | getFilters (accountID : String)
  | convertNotif (nid : String)
  | streamNotify (accountID : String)
  | populateCall (entity : String) (entityID : String)
  | muteCheck (threadID accountID : String)
  deriving DecidableEq, Repr

/-- Error oracle for the fallible collaborator calls made by
`Surface.Notify`. -/
structure NotifyEnv where
  getNotifErr : Bool
  putNotifErr : Bool
  getFiltersErr : Bool
  convertErr : Bool
  deriving DecidableEq, Repr

/-- Result of a surface call: the updated notification table, the returned
error (if any), and the calls issued. -/
structure NotifyOut where
  db : NotifDB
  res : Except String Unit
  trace : List Event
  deriving Repr

/-- Model of `Surface.Notify`: filter out remote targets, take the per-key lock,
check existence under the lock, persist when absent, release the lock
right after persistence, then fetch filters, convert and stream. -/
def Notify (env : NotifyEnv) (db : NotifDB) (newID : String)
    (notificationType : NotificationType)
    (targetAccount originAccount : Account) (statusID : String) : NotifyOut :=
  if targetAccount.IsRemote then
    ⟨db, .ok (), []⟩
  else
    let lockURI := getNotifyLockURI notificationType targetAccount originAccount statusID
    let checked : List Event :=
      [.lock lockURI,
       .getNotif notificationType targetAccount.id originAccount.id statusID]
    if env.getNotifErr then
      ⟨db, .error "error checking existence of notification",
        checked ++ [.unlock lockURI]⟩
    else
      match getNotification db notificationType targetAccount.id originAccount.id statusID with
      | some _ =>
          ⟨db, .ok (), checked ++ [.unlock lockURI]⟩
      | none =>
          let notif : Notification :=
            ⟨newID, notificationType, targetAccount.id, originAccount.id, statusID⟩
          if env.putNotifErr then
            ⟨db, .error "error putting notification in database",
              checked ++ [.putNotif notif, .unlock lockURI]⟩
          else
            let db2 := putNotification db notif
            let persisted := checked ++ [.putNotif notif, .unlock lockURI]
            if env.getFiltersErr then
              ⟨db2, .error "could not retrieve filters",
                persisted ++ [.getFilters targetAccount.id]⟩
            else if env.convertErr then
              ⟨db2, .error "error converting notification to api representation",
                persisted ++ [.getFilters targetAccount.id, .convertNotif notif.id]⟩
            else
              ⟨db2, .ok (),
                persisted ++ [.getFilters targetAccount.id, .convertNotif notif.id,
                  .streamNotify targetAccount.id]⟩

/-- The parameters of one call to `Surface.Notify`. -/
structure NotifyCall where
  env : NotifyEnv
  newID : String
  notificationType : NotificationType
  targetAccount : Account
  originAccount : Account
  statusID : String

/-- Run a sequence of `Surface.Notify` calls against the notification
table, threading the state through. -/
def runNotifies (db : NotifDB) : List NotifyCall → NotifDB
  | [] => db
  | c :: cs =>
      runNotifies
        (Notify c.env db c.newID c.notificationType c.targetAccount c.originAccount c.statusID).db
        cs

theorem getNotification_none_countNotifs {db : NotifDB} {t target origin statusID}
    (h : getNotification db t target origin statusID = none) :
    countNotifs db t target origin statusID = 0 := by
  rw [countNotifs, List.countP_eq_zero]
  intro n hn
  have := List.find?_eq_none.mp h n hn
  simpa using this

theorem countNotifs_put (db : NotifDB) (n : Notification) (t : NotificationType)
    (target origin statusID : String) :
    countNotifs (putNotification db n) t target origin statusID =
      countNotifs db t target origin statusID +
        (if notifMatches t target origin statusID n then 1 else 0) := by
  simp [countNotifs, putNotification, List.countP_append, List.countP_cons]

/-- Persisting a notification whose tuple is absent keeps the
deduplication invariant. -/
theorem dedupInv_put_of_getNone {db : NotifDB} {nt : NotificationType}
    {tid oid sid newID : String} (h : dedupInv db)
    (hfind : getNotification db nt tid oid sid = none) :
    dedupInv (putNotification db ⟨newID, nt, tid, oid, sid⟩) := by
  intro t target origin s
  rw [countNotifs_put]
  split
  · rename_i hm
    have hkeys : t = nt ∧ target = tid ∧ origin = oid ∧ s = sid := by
      simp only [notifMatches, Bool.and_eq_true, beq_iff_eq] at hm
      exact ⟨hm.1.1.1.symm, hm.1.1.2.symm, hm.1.2.symm, hm.2.symm⟩
    obtain ⟨rfl, rfl, rfl, rfl⟩ := hkeys
    have h0 := getNotification_none_countNotifs hfind
    omega
  · have := h t target origin s
    omega

/-- One `Notify` call preserves the deduplication invariant. -/
theorem Notify_preserves_dedupInv (env : NotifyEnv) (db : NotifDB) (newID : String)
    (nt : NotificationType) (targetAccount originAccount : Account) (statusID : String)
    (h : dedupInv db) :
    dedupInv (Notify env db newID nt targetAccount originAccount statusID).db := by
  unfold Notify
  split
  · exact h
  · split
    · exact h
    · rcases hfind : getNotification db nt targetAccount.id originAccount.id statusID with _ | n
      · simp only [hfind]
        split
        · exact h
        · split
          · exact dedupInv_put_of_getNone h hfind
          · split
            · exact dedupInv_put_of_getNone h hfind
            · exact dedupInv_put_of_getNone h hfind
      · simp only [hfind]
        exact h

/-- Any sequence of `Notify` calls preserves the deduplication
invariant. -/
theorem runNotifies_preserves_dedupInv (calls : List NotifyCall) :
    ∀ db : NotifDB, dedupInv db → dedupInv (runNotifies db calls) := by
  induction calls with
  | nil => intro db h; exact h
  | cons c cs ih =>
      intro db h
      exact ih _ (Notify_preserves_dedupInv c.env db c.newID c.notificationType
        c.targetAccount c.originAccount c.statusID h)

/-- Is this event a lock-protocol event (lock or unlock)? -/
def isLockEvent : Event → Bool
  | .lock _ => true
  | .unlock _ => true
  | _ => false

/-- A sample local account. -/
def acctA : Account := ⟨"01A", "https://example.org/users/a", ""⟩

/-- Another sample local account. -/
def acctB : Account := ⟨"01B", "https://example.org/users/b", ""⟩

/-- The all-succeed error oracle for `Notify`. -/
def envOK : NotifyEnv := ⟨false, false, false, false⟩

/-- C1: for every (type, target, origin, status) tuple with a local target
account, any number of `Surface.Notify` calls leave at most one persisted
notification for that tuple: every call first takes the per-key lock and
checks existence under it, and a call that finds an existing notification
returns success without touching the table. -/
theorem c1_notify_dedup_invariant :
    (∀ (env : NotifyEnv) (db : NotifDB) (newID : String) (nt : NotificationType)
        (target origin : Account) (sid : String),
        target.IsRemote = false →
        (Notify env db newID nt target origin sid).trace.take 2 =
          [Event.lock (getNotifyLockURI nt target origin sid),
           Event.getNotif nt target.id origin.id sid]) ∧
    (∀ (env : NotifyEnv) (db : NotifDB) (newID : String) (nt : NotificationType)
        (target origin : Account) (sid : String) (n : Notification),
        target.IsRemote = false → env.getNotifErr = false →
        getNotification db nt target.id origin.id sid = some n →
        (Notify env db newID nt target origin sid).db = db ∧
        (Notify env db newID nt target origin sid).res = .ok ()) ∧
    (∀ (db : NotifDB) (calls : List NotifyCall),
        dedupInv db → dedupInv (runNotifies db calls)) := by
  refine ⟨?_, ?_, ?_⟩
  · intro env db newID nt target origin sid hlocal
    unfold Notify
    simp only [hlocal, Bool.false_eq_true, if_false]
    split
    · rfl
    · split
      · rfl
      · split
        · rfl
        · split
          · rfl
          · split
            · rfl
            · rfl
  · intro env db newID nt target origin sid n hlocal hgerr hfind
    unfold Notify
    simp only [hlocal, Bool.false_eq_true, if_false, hgerr, hfind]
    exact ⟨by trivial, by trivial⟩
  · intro db calls h
    exact runNotifies_preserves_dedupInv calls db h

/-- Witness for C1 at concrete inputs: a second `Notify` with the same
parameters is a no-op success, and two identical calls starting from the
empty table keep the dedup invariant. -/
theorem c1_notify_dedup_invariant_witness :
    ((Notify envOK [⟨"N1", .fave, "01A", "01B", "S1"⟩] "N2" .fave acctA acctB "S1").db =
        [⟨"N1", .fave, "01A", "01B", "S1"⟩] ∧
      (Notify envOK [⟨"N1", .fave, "01A", "01B", "S1"⟩] "N2" .fave acctA acctB "S1").res =
        .ok ()) ∧
    dedupInv
      (runNotifies []
        [⟨envOK, "N1", .fave, acctA, acctB, "S1"⟩,
         ⟨envOK, "N2", .fave, acctA, acctB, "S1"⟩]) := by
  refine ⟨?_, ?_⟩
  · exact c1_notify_dedup_invariant.2.1 envOK [⟨"N1", .fave, "01A", "01B", "S1"⟩]
      "N2" .fave acctA acctB "S1" ⟨"N1", .fave, "01A", "01B", "S1"⟩
      (by decide) rfl (by decide)
  · exact c1_notify_dedup_invariant.2.2 []
      [⟨envOK, "N1", .fave, acctA, acctB, "S1"⟩,
       ⟨envOK, "N2", .fave, acctA, acctB, "S1"⟩]
      (by intro t a b c; simp [dedupInv, countNotifs])

/-- C7 counterexample: with the notification absent, persistence
succeeding and the filter lookup failing, `Notify` persists the
notification yet returns an error — refuting the claim that a failure in
the post-persistence push path still yields success. -/
theorem c7_push_failure_counterexample :
    (Notify ⟨false, false, true, false⟩ [] "N1" .fave acctA acctB "S1").db =
      [⟨"N1", .fave, "01A", "01B", "S1"⟩] ∧
    (Notify ⟨false, false, true, false⟩ [] "N1" .fave acctA acctB "S1").res =
      .error "could not retrieve filters" := by
  constructor <;> rfl

/-- C7 (amended): when no notification exists for the key, the new row is
persisted and the lock released immediately after persistence, before any
push work (no lock event among the push calls); a push-path failure does
not undo the persisted notification — but `Notify` then returns that
error rather than success. -/
theorem c7_unlock_before_push :
    ∀ (env : NotifyEnv) (db : NotifDB) (newID : String) (nt : NotificationType)
      (target origin : Account) (sid : String),
      target.IsRemote = false → env.getNotifErr = false →
      getNotification db nt target.id origin.id sid = none →
      env.putNotifErr = false →
      (∃ push,
        (Notify env db newID nt target origin sid).trace =
          [Event.lock (getNotifyLockURI nt target origin sid),
           Event.getNotif nt target.id origin.id sid,
           Event.putNotif ⟨newID, nt, target.id, origin.id, sid⟩,
           Event.unlock (getNotifyLockURI nt target origin sid)] ++ push ∧
        push.all (fun e => !(isLockEvent e)) = true) ∧
      (Notify env db newID nt target origin sid).db =
        putNotification db ⟨newID, nt, target.id, origin.id, sid⟩ ∧
      (env.getFiltersErr = true →
        (Notify env db newID nt target origin sid).res =
          .error "could not retrieve filters") := by
  intro env db newID nt target origin sid hlocal hgerr hfind hperr
  unfold Notify
  simp only [hlocal, Bool.false_eq_true, if_false, hgerr, hfind, hperr]
  split
  · exact ⟨⟨[.getFilters target.id], rfl, rfl⟩, rfl, fun _ => rfl⟩
  · split
    · refine ⟨⟨[.getFilters target.id, .convertNotif newID], rfl, rfl⟩, rfl, ?_⟩
      intro hf
      simp_all
    · refine ⟨⟨[.getFilters target.id, .convertNotif newID, .streamNotify target.id],
        rfl, rfl⟩, rfl, ?_⟩
      intro hf
      simp_all

/-- Witness for the amended C7 at concrete inputs. -/
theorem c7_unlock_before_push_witness :
    (∃ push,
      (Notify ⟨false, false, true, false⟩ [] "N9" .follow acctA acctB "").trace =
        [Event.lock (getNotifyLockURI .follow acctA acctB ""),
         Event.getNotif .follow "01A" "01B" "",
         Event.putNotif ⟨"N9", .follow, "01A", "01B", ""⟩,
         Event.unlock (getNotifyLockURI .follow acctA acctB "")] ++ push ∧
      push.all (fun e => !(isLockEvent e)) = true) ∧
    (Notify ⟨false, false, true, false⟩ [] "N9" .follow acctA acctB "").db =
      putNotification [] ⟨"N9", .follow, "01A", "01B", ""⟩ ∧
    (true = true →
      (Notify ⟨false, false, true, false⟩ [] "N9" .follow acctA acctB "").res =
        .error "could not retrieve filters") := by
  have h := c7_unlock_before_push ⟨false, false, true, false⟩ [] "N9" .follow
    acctA acctB "" (by decide) rfl (by decide) rfl
  exact ⟨h.1, h.2.1, fun _ => h.2.2 rfl⟩

/-- The handlers of the federation-origin handler set
(`fediAPI`, fromfediapi.go). -/
inductive FediHandler
  | createStatus
  | createFollowReq
  | createLike
  | createAnnounce
  | createBlock
  | createFlag
  | createPollVote
  | updateStatus
  | updateAccount
  | acceptFollow
  | deleteStatus
  | deleteAccount
  | moveAccount
  deriving DecidableEq, Repr

/-- The handlers of the client-origin handler set (`clientAPI`). -/
inductive ClientHandler
  | createAccount
  | createStatus
  | createPollVote
  | createFollowReq
  | createLike
  | createAnnounce
  | createBlock
  | updateStatus
  | updateAccount
  | updateReport
  | acceptFollow
  | acceptAccount
  | rejectFollowRequest
  | rejectAccount
  | undoFollow
  | undoBlock
  | undoFave
  | undoAnnounce
  | deleteStatus
  | deleteAccount
  | reportAccount
  | moveAccount
  deriving DecidableEq, Repr

/-- The "unhandled combination" error message built by both dispatcher
entry points (`gtserror.Newf("unhandled: %s %s", ...)`). -/
def unhandledErr (activityType objectType : String) : String :=
  "unhandled: " ++ activityType ++ " " ++ objectType

/-- Model of `Processor.ProcessFromFediAPI`: route an inbound federation-origin
envelope by its (activity type, object type) pair; `.ok h` means the
handler `h` was invoked (whose own outcome is out of scope here). The
`ap` package constants are modelled by their ActivityStreams names. -/
def ProcessFromFediAPI (activityType objectType : String) :
    Except String FediHandler :=
  match activityType with
  | "Create" =>
    match objectType with
    | "Note" => .ok .createStatus
    | "Follow" => .ok .createFollowReq
    | "Like" => .ok .createLike
    | "Announce" => .ok .createAnnounce
    | "Block" => .ok .createBlock
    | "Flag" => .ok .createFlag
    | "Question" => .ok .createPollVote
    | _ => .error (unhandledErr activityType objectType)
  | "Update" =>
    match objectType with
    | "Note" => .ok .updateStatus
    | "Profile" => .ok .updateAccount
    | _ => .error (unhandledErr activityType objectType)
  | "Accept" =>
    match objectType with
    | "Follow" => .ok .acceptFollow
    | _ => .error (unhandledErr activityType objectType)
  | "Delete" =>
    match objectType with
    | "Note" => .ok .deleteStatus
    | "Profile" => .ok .deleteAccount
    | _ => .error (unhandledErr activityType objectType)
  | "Move" =>
    match objectType with
    | "Profile" => .ok .moveAccount
    | _ => .error (unhandledErr activityType objectType)
  | _ => .error (unhandledErr activityType objectType)

/-- Model of `Processor.ProcessFromClientAPI`: route an inbound client-origin
envelope by its (activity type, object type) pair. -/
def ProcessFromClientAPI (activityType objectType : String) :
    Except String ClientHandler :=
  match activityType with
  | "Create" =>
    match objectType with
    | "Profile" => .ok .createAccount
    | "Person" => .ok .createAccount
    | "Note" => .ok .createStatus
    | "Question" => .ok .createPollVote
    | "Follow" => .ok .createFollowReq
    | "Like" => .ok .createLike
    | "Announce" => .ok .createAnnounce
    | "Block" => .ok .createBlock
    | _ => .error (unhandledErr activityType objectType)
  | "Update" =>
    match objectType with
    | "Note" => .ok .updateStatus
    | "Profile" => .ok .updateAccount
    | "Person" => .ok .updateAccount
    | "Flag" => .ok .updateReport
    | _ => .error (unhandledErr activityType objectType)
  | "Accept" =>
    match objectType with
    | "Follow" => .ok .acceptFollow
    | "Profile" => .ok .acceptAccount
    | "Person" => .ok .acceptAccount
    | _ => .error (unhandledErr activityType objectType)
  | "Reject" =>
    match objectType with
    | "Follow" => .ok .rejectFollowRequest
    | "Profile" => .ok .rejectAccount
    | "Person" => .ok .rejectAccount
    | _ => .error (unhandledErr activityType objectType)
  | "Undo" =>
    match objectType with
    | "Follow" => .ok .undoFollow
    | "Block" => .ok .undoBlock
    | "Like" => .ok .undoFave
    | "Announce" => .ok .undoAnnounce
    | _ => .error (unhandledErr activityType objectType)
  | "Delete" =>
    match objectType with
    | "Note" => .ok .deleteStatus
    | "Profile" => .ok .deleteAccount
    | "Person" => .ok .deleteAccount
    | _ => .error (unhandledErr activityType objectType)
  | "Flag" =>
    match objectType with
    | "Profile" => .ok .reportAccount
    | _ => .error (unhandledErr activityType objectType)
  | "Move" =>
    match objectType with
    | "Profile" => .ok .moveAccount
    | "Person" => .ok .moveAccount
    | _ => .error (unhandledErr activityType objectType)
  | _ => .error (unhandledErr activityType objectType)

/-- The (activity type, object type) pairs with a registered
federation-origin handler. -/
def fediRegistered : List (String × String) :=
  [("Create", "Note"), ("Create", "Follow"), ("Create", "Like"),
   ("Create", "Announce"), ("Create", "Block"), ("Create", "Flag"),
   ("Create", "Question"),
   ("Update", "Note"), ("Update", "Profile"),
   ("Accept", "Follow"),
   ("Delete", "Note"), ("Delete", "Profile"),
   ("Move", "Profile")]

/-- The (activity type, object type) pairs with a registered client-origin
handler. -/
def clientRegistered : List (String × String) :=
  [("Create", "Profile"), ("Create", "Person"), ("Create", "Note"),
   ("Create", "Question"), ("Create", "Follow"), ("Create", "Like"),
   ("Create", "Announce"), ("Create", "Block"),
   ("Update", "Note"), ("Update", "Profile"), ("Update", "Person"),
   ("Update", "Flag"),
   ("Accept", "Follow"), ("Accept", "Profile"), ("Accept", "Person"),
   ("Reject", "Follow"), ("Reject", "Profile"), ("Reject", "Person"),
   ("Undo", "Follow"), ("Undo", "Block"), ("Undo", "Like"),
   ("Undo", "Announce"),
   ("Delete", "Note"), ("Delete", "Profile"), ("Delete", "Person"),
   ("Flag", "Profile"),
   ("Move", "Profile"), ("Move", "Person")]

/-- The "unhandled" error message contains both the activity type and the
object type as substrings. -/
theorem unhandledErr_identifies (a o : String) :
    a.data <:+: (unhandledErr a o).data ∧ o.data <:+: (unhandledErr a o).data := by
  constructor
  · exact ⟨"unhandled: ".data, " ".data ++ o.data,
      by simp [unhandledErr, String.data_append]⟩
  · exact ⟨"unhandled: ".data ++ a.data ++ " ".data, [],
      by simp [unhandledErr, String.data_append]⟩

/-- C2: an envelope whose (activity type, object type) pair has no
registered handler makes both dispatcher entry points return the
"unhandled" error naming both fields, and a registered pair always
dispatches to a handler (success never happens without one). -/
theorem c2_dispatch_unhandled :
    (∀ a o : String, (a, o) ∉ fediRegistered →
      ProcessFromFediAPI a o = .error (unhandledErr a o) ∧
        a.data <:+: (unhandledErr a o).data ∧ o.data <:+: (unhandledErr a o).data) ∧
    (∀ a o : String, (a, o) ∈ fediRegistered →
      ∃ h, ProcessFromFediAPI a o = .ok h) ∧
    (∀ a o : String, (a, o) ∉ clientRegistered →
      ProcessFromClientAPI a o = .error (unhandledErr a o) ∧
        a.data <:+: (unhandledErr a o).data ∧ o.data <:+: (unhandledErr a o).data) ∧
    (∀ a o : String, (a, o) ∈ clientRegistered →
      ∃ h, ProcessFromClientAPI a o = .ok h) := by
  refine ⟨?_, ?_, ?_, ?_⟩
  · intro a o h
    refine ⟨?_, unhandledErr_identifies a o⟩
    unfold ProcessFromFediAPI
    split <;> first
      | rfl
      | (split <;> first | rfl | simp_all [fediRegistered])
  · intro a o h
    fin_cases h <;> exact ⟨_, rfl⟩
  · intro a o h
    refine ⟨?_, unhandledErr_identifies a o⟩
    unfold ProcessFromClientAPI
    split <;> first
      | rfl
      | (split <;> first | rfl | simp_all [clientRegistered])
  · intro a o h
    fin_cases h <;> exact ⟨_, rfl⟩

/-- Witness for C2 at concrete pairs: (Like, Note) is unregistered in both
sets, (Create, Note) is registered in both. -/
theorem c2_dispatch_unhandled_witness :
    (ProcessFromFediAPI "Like" "Note" = .error (unhandledErr "Like" "Note") ∧
      "Like".data <:+: (unhandledErr "Like" "Note").data ∧
      "Note".data <:+: (unhandledErr "Like" "Note").data) ∧
    (∃ h, ProcessFromFediAPI "Create" "Note" = .ok h) ∧
    (ProcessFromClientAPI "Undo" "Note" = .error (unhandledErr "Undo" "Note") ∧
      "Undo".data <:+: (unhandledErr "Undo" "Note").data ∧
      "Note".data <:+: (unhandledErr "Undo" "Note").data) ∧
    (∃ h, ProcessFromClientAPI "Create" "Note" = .ok h) := by
  refine ⟨?_, ?_, ?_, ?_⟩
  · exact c2_dispatch_unhandled.1 "Like" "Note" (by decide)
  · exact c2_dispatch_unhandled.2.1 "Create" "Note" (by decide)
  · exact c2_dispatch_unhandled.2.2.1 "Undo" "Note" (by decide)
  · exact c2_dispatch_unhandled.2.2.2 "Create" "Note" (by decide)

/-- A mention row (`gtsmodel.Mention`) restricted to the fields the
notification surface reads, with its relational fields populated. -/
structure Mention where
  id : String
  statusID : String
  targetAccountID : String
  targetAccount : Account
  originAccount : Account
  deriving DecidableEq, Repr

/-- A status row (`gtsmodel.Status`) restricted to the fields the pipeline
reads. `boostOfThreadID` stands for `status.BoostOf.ThreadID` (the only
field of the boosted status the surface reads), flattening the recursive
`BoostOf` pointer. -/
structure Status where
  id : String
  uri : String
  accountID : String
  account : Account
  threadID : String
  inReplyToID : String
  boostOfID : String
  boostOfAccountID : String
  boostOfAccount : Account
  boostOfThreadID : String
  mentions : List Mention
  deriving DecidableEq, Repr

/-- One collaborator call issued by a handler, in trace order. -/
inductive Op
  | populateStatus (statusID : String)
  | queueDelete (worker field value : String)
  | wipeStatus (statusID : String) (deleteAttachments : Bool)
  | decrementStatusesCount (accountID : String)
  | invalidateTimelines (statusID : String)
  | federateDeleteStatus (statusID : String)
  | putPollVote (voteID : String)
  | populatePollVote (voteID : String)
  | populatePoll (pollID : String)
  | federateUpdateStatus (statusID : String)
  | homeWipe (timelineAccountID itemAccountID : String)
  | listWipe (timelineAccountID itemAccountID : String)
  | deleteFollow (accountID targetAccountID : String)
  | deleteFollowRequest (accountID targetAccountID : String)
  | federateBlock (blockID : String)
  | redirectFollowers (originID targetID : String)
  | populateMove (moveID : String)
  | federateMoveAccount (accountID : String)
  | updateMove (moveID : String) (column : String)
  | logError (msg : String)
  deriving DecidableEq, Repr

/-- Trace fragment of a secondary effect whose failure is logged, not
propagated: `if b then [logError msg] else []`. -/
def logIf (b : Bool) (msg : String) : List Op :=
  if b then [.logError msg] else []

/-- Is this operation a queue purge (`Queue.Delete`)? -/
def isQueueDelete : Op → Bool
  | .queueDelete _ _ _ => true
  | _ => false

/-- Error oracle for the fallible calls of the two `DeleteStatus`
handlers. -/
structure DeleteStatusEnv where
  populateErr : Bool
  wipeErr : Bool
  decrErr : Bool
  federateErr : Bool
  deriving DecidableEq, Repr

/-- The four queue purges both `DeleteStatus` handlers issue, all keyed on
the status URI: delivery queue by ObjectID and TargetID, client queue by
TargetURI, federator queue by TargetURI. -/
def statusPurges (uri : String) : List Op :=
  [.queueDelete "Delivery" "ObjectID" uri,
   .queueDelete "Delivery" "TargetID" uri,
   .queueDelete "Client" "TargetURI" uri,
   .queueDelete "Federator" "TargetURI" uri]

/-- Model of `fediAPI.DeleteStatus`: populate, purge queues, wipe the status with
attachment deletion (failure logged), update stats, invalidate the replied
status. -/
def fediDeleteStatus (env : DeleteStatusEnv) (requestingID : String)
    (status : Status) : Except String Unit × List Op :=
  if env.populateErr then
    (.error "db error populating status", [.populateStatus status.id])
  else
    (.ok (),
      [Op.populateStatus status.id] ++ statusPurges status.uri
        ++ [Op.wipeStatus status.id true]
        ++ logIf env.wipeErr "error wiping status"
        ++ [Op.decrementStatusesCount requestingID]
        ++ logIf env.decrErr "error updating account stats"
        ++ (if status.inReplyToID != ""
            then [Op.invalidateTimelines status.inReplyToID] else []))

/-- Model of `clientAPI.DeleteStatus`: as the federation-origin handler but without
attachment deletion, and federating the delete afterwards. -/
def clientDeleteStatus (env : DeleteStatusEnv) (originID : String)
    (status : Status) : Except String Unit × List Op :=
  if env.populateErr then
    (.error "db error populating status", [.populateStatus status.id])
  else
    (.ok (),
      [Op.populateStatus status.id] ++ statusPurges status.uri
        ++ [Op.wipeStatus status.id false]
        ++ logIf env.wipeErr "error wiping status"
        ++ [Op.decrementStatusesCount originID]
        ++ logIf env.decrErr "error updating account stats"
        ++ (if status.inReplyToID != ""
            then [Op.invalidateTimelines status.inReplyToID] else [])
        ++ [Op.federateDeleteStatus status.id]
        ++ logIf env.federateErr "error federating status delete")

/-- C3: in both Delete Status handlers, all queue purges (delivery queue by
ObjectID and TargetID, client and federator queues by TargetURI, all keyed
on the status URI) are issued before `wipeStatus`, and no queue purge is
issued afterwards. -/
theorem c3_purges_before_wipe :
    ∀ (env : DeleteStatusEnv) (actorID : String) (status : Status),
      env.populateErr = false →
      (∃ suf,
        (fediDeleteStatus env actorID status).2 =
          [Op.populateStatus status.id] ++ statusPurges status.uri
            ++ [Op.wipeStatus status.id true] ++ suf ∧
        suf.all (fun op => !(isQueueDelete op)) = true) ∧
      (∃ suf,
        (clientDeleteStatus env actorID status).2 =
          [Op.populateStatus status.id] ++ statusPurges status.uri
            ++ [Op.wipeStatus status.id false] ++ suf ∧
        suf.all (fun op => !(isQueueDelete op)) = true) := by
  intro env actorID status hpop
  constructor
  · refine ⟨logIf env.wipeErr "error wiping status"
      ++ [Op.decrementStatusesCount actorID]
      ++ logIf env.decrErr "error updating account stats"
      ++ (if status.inReplyToID != ""
          then [Op.invalidateTimelines status.inReplyToID] else []), ?_, ?_⟩
    · simp [fediDeleteStatus, hpop]
    · cases hw : env.wipeErr <;> cases hd : env.decrErr <;>
        cases hr : (status.inReplyToID != "") <;>
        simp [logIf, hr, isQueueDelete]
  · refine ⟨logIf env.wipeErr "error wiping status"
      ++ [Op.decrementStatusesCount actorID]
      ++ logIf env.decrErr "error updating account stats"
      ++ (if status.inReplyToID != ""
          then [Op.invalidateTimelines status.inReplyToID] else [])
      ++ [Op.federateDeleteStatus status.id]
      ++ logIf env.federateErr "error federating status delete", ?_, ?_⟩
    · simp [clientDeleteStatus, hpop]
    · cases hw : env.wipeErr <;> cases hd : env.decrErr <;>
        cases hf : env.federateErr <;> cases hr : (status.inReplyToID != "") <;>
        simp [logIf, hr, isQueueDelete]

/-- A sample status authored by `acctB`, with no reply, boost or poll. -/
def demoStatus : Status :=
  ⟨"S1", "https://example.org/statuses/s1", "01B", acctB, "T1",
   "", "", "", acctB, "", []⟩

/-- Witness for C3 at a concrete input. -/
theorem c3_purges_before_wipe_witness :
    (∃ suf,
      (fediDeleteStatus ⟨false, true, false, false⟩ "01B" demoStatus).2 =
        [Op.populateStatus "S1"] ++ statusPurges "https://example.org/statuses/s1"
          ++ [Op.wipeStatus "S1" true] ++ suf ∧
      suf.all (fun op => !(isQueueDelete op)) = true) ∧
    (∃ suf,
      (clientDeleteStatus ⟨false, true, false, false⟩ "01B" demoStatus).2 =
        [Op.populateStatus "S1"] ++ statusPurges "https://example.org/statuses/s1"
          ++ [Op.wipeStatus "S1" false] ++ suf ∧
      suf.all (fun op => !(isQueueDelete op)) = true) :=
  c3_purges_before_wipe ⟨false, true, false, false⟩ "01B" demoStatus rfl

/-- The fields of `gtsmodel.PollVote` the `CreatePollVote` handler reads;
`statusID`/`statusLocal` stand for `vote.Poll.StatusID` and
`*vote.Poll.Status.Local`. -/
structure PollVote where
  id : String
  pollID : String
  statusID : String
  statusLocal : Bool
  deriving DecidableEq, Repr

/-- Error oracle for `fediAPI.CreatePollVote`. -/
structure PollVoteEnv where
  putErr : Bool
  populateVoteErr : Bool
  populatePollErr : Bool
  federateErr : Bool
  deriving DecidableEq, Repr

/-- Model of `fediAPI.CreatePollVote`: persist the vote (abort on failure), populate
vote and poll (abort on failure), invalidate the origin status from
timelines, and federate the updated local status (failure logged). -/
def fediCreatePollVote (env : PollVoteEnv) (vote : PollVote) :
    Except String Unit × List Op :=
  if env.putErr then
    (.error "error inserting poll vote in db", [.putPollVote vote.id])
  else if env.populateVoteErr then
    (.error "error populating poll vote from db",
      [.putPollVote vote.id, .populatePollVote vote.id])
  else if env.populatePollErr then
    (.error "error populating poll from db",
      [.putPollVote vote.id, .populatePollVote vote.id, .populatePoll vote.pollID])
  else
    (.ok (),
      [Op.putPollVote vote.id, Op.populatePollVote vote.id,
       Op.populatePoll vote.pollID, Op.invalidateTimelines vote.statusID]
        ++ (if vote.statusLocal then
              [Op.federateUpdateStatus vote.statusID]
                ++ logIf env.federateErr "error federating status update"
            else []))

/-- C4 counterexample: in `clientAPI.DeleteStatus` the primary effect
(`wipeStatus`) fails, yet the handler only logs it, carries on with the
secondary effects (stats, federation) and returns success — refuting the
claim that every handler aborts with the error when its primary effect
fails. -/
theorem c4_wipe_failure_counterexample :
    (clientDeleteStatus ⟨false, true, false, false⟩ "01B" demoStatus).1 = .ok () ∧
    Op.logError "error wiping status" ∈
      (clientDeleteStatus ⟨false, true, false, false⟩ "01B" demoStatus).2 ∧
    Op.federateDeleteStatus "S1" ∈
      (clientDeleteStatus ⟨false, true, false, false⟩ "01B" demoStatus).2 := by
  refine ⟨rfl, ?_, ?_⟩ <;> decide

/-- C4 (amended): `CreatePollVote` aborts with the error when persisting
the vote fails; the Delete Status handlers, by contrast, only log a
`wipeStatus` failure, continue with the secondary effects and return
success. -/
theorem c4_primary_effect_abort :
    (∀ (env : PollVoteEnv) (vote : PollVote),
      env.putErr = true →
      fediCreatePollVote env vote =
        (.error "error inserting poll vote in db", [.putPollVote vote.id])) ∧
    (∀ (env : DeleteStatusEnv) (actorID : String) (status : Status),
      env.populateErr = false → env.wipeErr = true →
      (fediDeleteStatus env actorID status).1 = .ok () ∧
      Op.logError "error wiping status" ∈ (fediDeleteStatus env actorID status).2 ∧
      Op.decrementStatusesCount actorID ∈ (fediDeleteStatus env actorID status).2 ∧
      (clientDeleteStatus env actorID status).1 = .ok () ∧
      Op.logError "error wiping status" ∈ (clientDeleteStatus env actorID status).2 ∧
      Op.federateDeleteStatus status.id ∈ (clientDeleteStatus env actorID status).2) := by
  constructor
  · intro env vote hput
    simp [fediCreatePollVote, hput]
  · intro env actorID status hpop hwipe
    refine ⟨?_, ?_, ?_, ?_, ?_, ?_⟩ <;>
      simp [fediDeleteStatus, clientDeleteStatus, hpop, hwipe, logIf, statusPurges]

/-- Witness for the amended C4 at concrete inputs. -/
theorem c4_primary_effect_abort_witness :
    fediCreatePollVote ⟨true, false, false, false⟩ ⟨"V1", "P1", "S1", true⟩ =
      (.error "error inserting poll vote in db", [.putPollVote "V1"]) ∧
    (fediDeleteStatus ⟨false, true, false, false⟩ "01B" demoStatus).1 = .ok () ∧
    (clientDeleteStatus ⟨false, true, false, false⟩ "01B" demoStatus).1 = .ok () := by
  refine ⟨c4_primary_effect_abort.1 ⟨true, false, false, false⟩ ⟨"V1", "P1", "S1", true⟩ rfl,
    ?_, ?_⟩
  · exact (c4_primary_effect_abort.2 ⟨false, true, false, false⟩ "01B" demoStatus rfl rfl).1
  · exact (c4_primary_effect_abort.2 ⟨false, true, false, false⟩ "01B" demoStatus rfl rfl).2.2.2.1

/-- The fields of `gtsmodel.Block` the Create Block handlers read. -/
structure Block where
  id : String
  accountID : String
  targetAccountID : String
  deriving DecidableEq, Repr

/-- Error oracle for the Create Block handlers. -/
structure BlockEnv where
  homeWipe1Err : Bool
  homeWipe2Err : Bool
  listWipe1Err : Bool
  listWipe2Err : Bool
  delFollow1Err : Bool
  delFollow2Err : Bool
  delFollowReq1Err : Bool
  delFollowReq2Err : Bool
  federateErr : Bool
  deriving DecidableEq, Repr

/-- Model of `clientAPI.CreateBlock`: wipe the posts of each account from
the home timeline of the other (aborting on the first error), then federate the block
(failure logged). -/
def clientCreateBlock (env : BlockEnv) (block : Block) :
    Except String Unit × List Op :=
  if env.homeWipe1Err then
    (.error "error wiping timeline items for block",
      [.homeWipe block.accountID block.targetAccountID])
  else if env.homeWipe2Err then
    (.error "error wiping timeline items for block",
      [.homeWipe block.accountID block.targetAccountID,
       .homeWipe block.targetAccountID block.accountID])
  else
    (.ok (),
      [Op.homeWipe block.accountID block.targetAccountID,
       Op.homeWipe block.targetAccountID block.accountID,
       Op.federateBlock block.id]
        ++ logIf env.federateErr "error federating block")

/-- Model of `fediAPI.CreateBlock`: wipe home and list timelines in both directions
and delete Follow and FollowRequest in both directions; every failure is
logged and processing continues. -/
def fediCreateBlock (env : BlockEnv) (block : Block) :
    Except String Unit × List Op :=
  (.ok (),
    [Op.homeWipe block.accountID block.targetAccountID]
      ++ logIf env.homeWipe1Err "error wiping items from home timeline"
      ++ [Op.homeWipe block.targetAccountID block.accountID]
      ++ logIf env.homeWipe2Err "error wiping items from home timeline"
      ++ [Op.listWipe block.accountID block.targetAccountID]
      ++ logIf env.listWipe1Err "error wiping items from list timelines"
      ++ [Op.listWipe block.targetAccountID block.accountID]
      ++ logIf env.listWipe2Err "error wiping items from list timelines"
      ++ [Op.deleteFollow block.accountID block.targetAccountID]
      ++ logIf env.delFollow1Err "error deleting follow"
      ++ [Op.deleteFollow block.targetAccountID block.accountID]
      ++ logIf env.delFollow2Err "error deleting follow"
      ++ [Op.deleteFollowRequest block.accountID block.targetAccountID]
      ++ logIf env.delFollowReq1Err "error deleting follow request"
      ++ [Op.deleteFollowRequest block.targetAccountID block.accountID]
      ++ logIf env.delFollowReq2Err "error deleting follow request")

/-- Is this operation a Follow or FollowRequest removal? -/
def isRelationRemoval : Op → Bool
  | .deleteFollow _ _ => true
  | .deleteFollowRequest _ _ => true
  | _ => false

/-- Is this operation a list-timeline wipe? -/
def isListWipe : Op → Bool
  | .listWipe _ _ => true
  | _ => false

/-- A sample block of `acctB` by `acctA`. -/
def demoBlock : Block := ⟨"BL1", "01A", "01B"⟩

/-- An all-succeed block error oracle. -/
def blockEnvOK : BlockEnv :=
  ⟨false, false, false, false, false, false, false, false, false⟩

/-- C5 counterexample: the client-origin Create Block handler, even with
every collaborator succeeding, issues only the two home-timeline wipes and
the federation send — no list-timeline wipe and no Follow/FollowRequest
deletion — refuting the claim that the client-origin handler removes list
entries and deletes the four relations. -/
theorem c5_client_block_counterexample :
    clientCreateBlock blockEnvOK demoBlock =
      (.ok (), [.homeWipe "01A" "01B", .homeWipe "01B" "01A",
        .federateBlock "BL1"]) ∧
    Op.deleteFollow "01A" "01B" ∉ (clientCreateBlock blockEnvOK demoBlock).2 ∧
    Op.deleteFollowRequest "01A" "01B" ∉
      (clientCreateBlock blockEnvOK demoBlock).2 ∧
    Op.listWipe "01A" "01B" ∉ (clientCreateBlock blockEnvOK demoBlock).2 := by
  refine ⟨rfl, ?_, ?_, ?_⟩ <;> decide

/-- C5 (amended): client-origin Create Block only wipes the two home
timelines (aborting on the first wipe error) and federates the block; the
full purge — list-timeline wipes and deletion of Follow/FollowRequest in
both directions, with all four removal calls attempted even when earlier
ones fail — lives in the federation-origin Create Block handler. -/
theorem c5_block_effects :
    (∀ (env : BlockEnv) (block : Block),
      (clientCreateBlock env block).2.all
        (fun op => !(isRelationRemoval op) && !(isListWipe op)) = true ∧
      (env.homeWipe1Err = true →
        (clientCreateBlock env block).1 =
          .error "error wiping timeline items for block")) ∧
    (∀ (env : BlockEnv) (block : Block),
      (fediCreateBlock env block).1 = .ok () ∧
      Op.homeWipe block.accountID block.targetAccountID ∈ (fediCreateBlock env block).2 ∧
      Op.homeWipe block.targetAccountID block.accountID ∈ (fediCreateBlock env block).2 ∧
      Op.listWipe block.accountID block.targetAccountID ∈ (fediCreateBlock env block).2 ∧
      Op.listWipe block.targetAccountID block.accountID ∈ (fediCreateBlock env block).2 ∧
      Op.deleteFollow block.accountID block.targetAccountID ∈ (fediCreateBlock env block).2 ∧
      Op.deleteFollow block.targetAccountID block.accountID ∈ (fediCreateBlock env block).2 ∧
      Op.deleteFollowRequest block.accountID block.targetAccountID ∈ (fediCreateBlock env block).2 ∧
      Op.deleteFollowRequest block.targetAccountID block.accountID ∈ (fediCreateBlock env block).2) := by
  constructor
  · intro env block
    constructor
    · rcases env with ⟨h1, h2, l1, l2, f1, f2, r1, r2, fe⟩
      cases h1 <;> cases h2 <;> cases fe <;>
        simp [clientCreateBlock, logIf, isRelationRemoval, isListWipe]
    · intro h1
      simp [clientCreateBlock, h1]
  · intro env block
    refine ⟨rfl, ?_, ?_, ?_, ?_, ?_, ?_, ?_, ?_⟩ <;>
      simp [fediCreateBlock, logIf]

/-- Witness for the amended C5 at concrete inputs. -/
theorem c5_block_effects_witness :
    ((clientCreateBlock ⟨true, false, false, false, false, false, false, false, false⟩
        demoBlock).1 = .error "error wiping timeline items for block") ∧
    Op.deleteFollowRequest "01B" "01A" ∈ (fediCreateBlock blockEnvOK demoBlock).2 := by
  constructor
  · exact (c5_block_effects.1
      ⟨true, false, false, false, false, false, false, false, false⟩ demoBlock).2 rfl
  · exact (c5_block_effects.2 blockEnvOK demoBlock).2.2.2.2.2.2.2.2

/-- The fields of `gtsmodel.Move` the Move Account handler touches; a time
is a string and the Go zero time is `""` (unset). -/
structure Move where
  id : String
  attemptedAt : String
  succeededAt : String
  deriving DecidableEq, Repr

/-- Error oracle for `clientAPI.MoveAccount`. -/
structure MoveEnv where
  populateErr : Bool
  federateErr : Bool
  updateErr : Bool
  deriving DecidableEq, Repr

/-- Model of `clientAPI.MoveAccount`: redirect local followers (return value
ignored), populate the Move (abort on failure), federate the Move message
(abort on failure), then set `SucceededAt := AttemptedAt` and persist that
column. Returns the final in-memory move record as well. -/
def clientMoveAccount (env : MoveEnv) (originID targetID : String)
    (move : Move) : Move × Except String Unit × List Op :=
  let start : List Op := [.redirectFollowers originID targetID]
  if env.populateErr then
    (move, .error "error populating Move", start ++ [.populateMove move.id])
  else if env.federateErr then
    (move, .error "error federating account move",
      start ++ [.populateMove move.id, .federateMoveAccount originID])
  else
    let move2 := { move with succeededAt := move.attemptedAt }
    if env.updateErr then
      (move2, .error "error marking move as successful",
        start ++ [.populateMove move.id, .federateMoveAccount originID,
          .updateMove move.id "succeeded_at"])
    else
      (move2, .ok (),
        start ++ [.populateMove move.id, .federateMoveAccount originID,
          .updateMove move.id "succeeded_at"])

/-- C8: `SucceededAt` is set and persisted only after the federation
MoveAccount send succeeds: with the send failing the handler returns that
error, never issues the `succeeded_at` update and leaves the move record
untouched; with the send succeeding the update call follows the federation
send in the trace and sets `SucceededAt` to `AttemptedAt`. -/
theorem c8_move_succeeded_after_federate :
    ∀ (env : MoveEnv) (originID targetID : String) (move : Move),
      (env.populateErr = false → env.federateErr = true →
        (clientMoveAccount env originID targetID move).1 = move ∧
        (clientMoveAccount env originID targetID move).2.1 =
          .error "error federating account move" ∧
        ∀ col, Op.updateMove move.id col ∉
          (clientMoveAccount env originID targetID move).2.2) ∧
      (env.populateErr = false → env.federateErr = false →
        (clientMoveAccount env originID targetID move).1.succeededAt =
          move.attemptedAt ∧
        (clientMoveAccount env originID targetID move).2.2 =
          [Op.redirectFollowers originID targetID, Op.populateMove move.id,
           Op.federateMoveAccount originID,
           Op.updateMove move.id "succeeded_at"]) := by
  intro env originID targetID move
  constructor
  · intro hpop hfed
    refine ⟨?_, ?_, ?_⟩ <;> simp [clientMoveAccount, hpop, hfed]
  · intro hpop hfed
    rcases hu : env.updateErr <;>
      constructor <;> simp [clientMoveAccount, hpop, hfed, hu]

/-- Witness for C8 at concrete inputs. -/
theorem c8_move_succeeded_after_federate_witness :
    ((clientMoveAccount ⟨false, true, false⟩ "01A" "01B" ⟨"M1", "t1", ""⟩).1 =
        ⟨"M1", "t1", ""⟩ ∧
      (clientMoveAccount ⟨false, true, false⟩ "01A" "01B" ⟨"M1", "t1", ""⟩).2.1 =
        .error "error federating account move" ∧
      ∀ col, Op.updateMove "M1" col ∉
        (clientMoveAccount ⟨false, true, false⟩ "01A" "01B" ⟨"M1", "t1", ""⟩).2.2) ∧
    ((clientMoveAccount ⟨false, false, false⟩ "01A" "01B" ⟨"M1", "t1", ""⟩).1.succeededAt =
        "t1" ∧
      (clientMoveAccount ⟨false, false, false⟩ "01A" "01B" ⟨"M1", "t1", ""⟩).2.2 =
        [Op.redirectFollowers "01A" "01B", Op.populateMove "M1",
         Op.federateMoveAccount "01A", Op.updateMove "M1" "succeeded_at"]) := by
  constructor
  · exact (c8_move_succeeded_after_federate ⟨false, true, false⟩ "01A" "01B"
      ⟨"M1", "t1", ""⟩).1 rfl rfl
  · exact (c8_move_succeeded_after_federate ⟨false, false, false⟩ "01A" "01B"
      ⟨"M1", "t1", ""⟩).2 rfl rfl

/-- The fields of `gtsmodel.StatusFave` the notification surface reads;
`statusThreadID` stands for `fave.Status.ThreadID`. -/
structure StatusFave where
  id : String
  accountID : String
  account : Account
  targetAccountID : String
  targetAccount : Account
  statusID : String
  statusThreadID : String
  deriving DecidableEq, Repr

/-- The fields of `gtsmodel.Follow` the notification surface reads. -/
structure Follow where
  id : String
  accountID : String
  account : Account
  targetAccountID : String
  targetAccount : Account
  deriving DecidableEq, Repr

/-- Environment of the notification surface functions: error oracles for
the populate and thread-mute lookups, the thread-mute table itself
(`IsThreadMutedByAccount`), and the `Notify` oracle. -/
structure SurfaceEnv where
  populateErr : Bool
  muteCheckErr : Bool
  muted : String → String → Bool
  notifyEnv : NotifyEnv

/-- Wrap an inner error with a handler context message, as
`gtserror.Newf("...: %w", err)` does. -/
def wrapRes (ctxMsg : String) : Except String Unit → Except String Unit
  | .ok _ => .ok ()
  | .error e => .error (ctxMsg ++ e)

/-- Model of `Surface.notifyFave`: skip self-faves, populate, skip remote targets,
skip when the favee muted the thread, else notify the status author. -/
def notifyFave (env : SurfaceEnv) (db : NotifDB) (newID : String)
    (fave : StatusFave) : NotifyOut :=
  if fave.targetAccountID = fave.accountID then
    ⟨db, .ok (), []⟩
  else if env.populateErr then
    ⟨db, .error "error populating fave", [.populateCall "fave" fave.id]⟩
  else if fave.targetAccount.IsRemote then
    ⟨db, .ok (), [.populateCall "fave" fave.id]⟩
  else
    let pre := [Event.populateCall "fave" fave.id,
                Event.muteCheck fave.statusThreadID fave.targetAccountID]
    if env.muteCheckErr then
      ⟨db, .error "error checking status thread mute", pre⟩
    else if env.muted fave.statusThreadID fave.targetAccountID then
      ⟨db, .ok (), pre⟩
    else
      let out := Notify env.notifyEnv db newID .fave fave.targetAccount
        fave.account fave.statusID
      ⟨out.db, wrapRes "error notifying status author: " out.res, pre ++ out.trace⟩

/-- Model of `Surface.notifyAnnounce`: skip non-boosts and self-boosts, populate,
skip remote boostees, skip when the boostee muted the thread, else notify
the boosted author. -/
def notifyAnnounce (env : SurfaceEnv) (db : NotifDB) (newID : String)
    (status : Status) : NotifyOut :=
  if status.boostOfID = "" then
    ⟨db, .ok (), []⟩
  else if status.boostOfAccountID = status.accountID then
    ⟨db, .ok (), []⟩
  else if env.populateErr then
    ⟨db, .error "error populating status", [.populateCall "status" status.id]⟩
  else if status.boostOfAccount.IsRemote then
    ⟨db, .ok (), [.populateCall "status" status.id]⟩
  else
    let pre := [Event.populateCall "status" status.id,
                Event.muteCheck status.boostOfThreadID status.boostOfAccountID]
    if env.muteCheckErr then
      ⟨db, .error "error checking status thread mute", pre⟩
    else if env.muted status.boostOfThreadID status.boostOfAccountID then
      ⟨db, .ok (), pre⟩
    else
      let out := Notify env.notifyEnv db newID .reblog status.boostOfAccount
        status.account status.id
      ⟨out.db, wrapRes "error notifying status author: " out.res, pre ++ out.trace⟩

/-- The per-mention loop of `Surface.notifyMentions`, accumulating the
`MultiError` messages and the trace. -/
def notifyMentionsGo (env : SurfaceEnv) (mkID : String → String)
    (status : Status) :
    List Mention → NotifDB → List String → List Event →
      NotifDB × List String × List Event
  | [], db, errs, tr => (db, errs, tr)
  | m :: ms, db, errs, tr =>
    if env.populateErr then
      notifyMentionsGo env mkID status ms db
        (errs ++ ["error populating mention"]) (tr ++ [.populateCall "mention" m.id])
    else if m.targetAccount.IsRemote then
      notifyMentionsGo env mkID status ms db errs (tr ++ [.populateCall "mention" m.id])
    else if env.muteCheckErr then
      notifyMentionsGo env mkID status ms db
        (errs ++ ["error checking status thread mute"])
        (tr ++ [.populateCall "mention" m.id, .muteCheck status.threadID m.targetAccountID])
    else if env.muted status.threadID m.targetAccountID then
      notifyMentionsGo env mkID status ms db errs
        (tr ++ [.populateCall "mention" m.id, .muteCheck status.threadID m.targetAccountID])
    else
      let out := Notify env.notifyEnv db (mkID m.id) .mention m.targetAccount
        m.originAccount m.statusID
      let errs2 :=
        match out.res with
        | .ok _ => errs
        | .error e => errs ++ ["error notifying mention target: " ++ e]
      notifyMentionsGo env mkID status ms out.db errs2
        (tr ++ [.populateCall "mention" m.id,
                .muteCheck status.threadID m.targetAccountID] ++ out.trace)

/-- Model of `Surface.notifyMentions`: notify every mentioned local account that did
not mute the thread, combining per-mention failures into one error. -/
def notifyMentions (env : SurfaceEnv) (db : NotifDB) (mkID : String → String)
    (status : Status) : NotifyOut :=
  let r := notifyMentionsGo env mkID status status.mentions db [] []
  ⟨r.1, if r.2.1 = [] then .ok () else .error (String.intercalate "; " r.2.1), r.2.2⟩

/-- Error oracle for `Surface.notifyFollow`. -/
structure NotifyFollowEnv where
  populateErr : Bool
  getNotifErr : Bool
  deleteErr : Bool
  notifyEnv : NotifyEnv
  deriving DecidableEq, Repr

/-- Model of `Surface.notifyFollow`: populate, skip remote targets, look up a
previous follow-request notification for the pair ("no rows" is not an
error), delete it when present, then notify the follow itself. -/
def notifyFollow (env : NotifyFollowEnv) (db : NotifDB) (newID : String)
    (follow : Follow) : NotifyOut :=
  if env.populateErr then
    ⟨db, .error "error populating follow", [.populateCall "follow" follow.id]⟩
  else if follow.targetAccount.IsRemote then
    ⟨db, .ok (), [.populateCall "follow" follow.id]⟩
  else
    let pre := [Event.populateCall "follow" follow.id,
                Event.getNotif .followRequest follow.targetAccountID follow.accountID ""]
    if env.getNotifErr then
      ⟨db, .error "error getting notification", pre⟩
    else
      match getNotification db .followRequest follow.targetAccountID follow.accountID "" with
      | some prevNotif =>
          if env.deleteErr then
            ⟨db, .error "error deleting notification", pre ++ [.deleteNotif prevNotif.id]⟩
          else
            let db2 := deleteNotificationByID db prevNotif.id
            let out := Notify env.notifyEnv db2 newID .follow follow.targetAccount
              follow.account ""
            ⟨out.db, wrapRes "error notifying follow target: " out.res,
              pre ++ [.deleteNotif prevNotif.id] ++ out.trace⟩
      | none =>
          let out := Notify env.notifyEnv db newID .follow follow.targetAccount
            follow.account ""
          ⟨out.db, wrapRes "error notifying follow target: " out.res, pre ++ out.trace⟩

theorem getNotification_some_mem {db : NotifDB} {t : NotificationType}
    {a b s : String} {n : Notification}
    (h : getNotification db t a b s = some n) :
    n ∈ db ∧ notifMatches t a b s n = true :=
  ⟨List.mem_of_find?_eq_some h, List.find?_some h⟩

theorem filter_eq_single_of_countP_le_one {p : Notification → Bool} {db : NotifDB}
    {n : Notification} (hcount : db.countP p ≤ 1) (hmem : n ∈ db)
    (hp : p n = true) : db.filter p = [n] := by
  induction db with
  | nil => cases hmem
  | cons a t ih =>
      rw [List.countP_cons] at hcount
      rcases List.mem_cons.mp hmem with rfl | hmt
      · rw [List.filter_cons, if_pos hp]
        have ht : t.countP p = 0 := by
          simp only [hp, if_pos] at hcount
          omega
        have : t.filter p = [] := by
          rw [List.filter_eq_nil_iff]
          intro x hx
          have := List.countP_eq_zero.mp ht x hx
          simpa using this
        rw [this]
      · rcases ha : p a with _ | _
        · rw [List.filter_cons, if_neg (by simp [ha])]
          refine ih ?_ hmt
          simp only [ha] at hcount
          omega
        · exfalso
          have h1 : 1 ≤ t.countP p :=
            List.countP_pos_iff.mpr ⟨n, hmt, hp⟩
          simp only [ha, if_pos] at hcount
          omega

theorem countNotifs_delete_found {db : NotifDB} {t : NotificationType}
    {a b s : String} {n : Notification}
    (hfind : getNotification db t a b s = some n)
    (hcount : countNotifs db t a b s ≤ 1) :
    countNotifs (deleteNotificationByID db n.id) t a b s = 0 := by
  obtain ⟨hmem, hp⟩ := getNotification_some_mem hfind
  have hfilter : db.filter (notifMatches t a b s) = [n] :=
    filter_eq_single_of_countP_le_one hcount hmem hp
  rw [countNotifs, deleteNotificationByID, List.countP_eq_zero]
  intro x hx
  obtain ⟨hxdb, hxid⟩ := List.mem_filter.mp hx
  intro hxmatch
  have : x ∈ db.filter (notifMatches t a b s) :=
    List.mem_filter.mpr ⟨hxdb, hxmatch⟩
  rw [hfilter] at this
  have : x = n := by simpa using this
  subst this
  simp at hxid

/-- Deleting a notification by ID preserves the dedup bound on every
tuple. -/
theorem countNotifs_delete_le {db : NotifDB} (nid : String)
    (t : NotificationType) (a b s : String) :
    countNotifs (deleteNotificationByID db nid) t a b s ≤
      countNotifs db t a b s :=
  (List.filter_sublist db).countP_le _

/-- With an existing notification for the tuple (and no lookup error),
`Notify` leaves the table untouched. -/
theorem Notify_db_some (env : NotifyEnv) (db : NotifDB) (newID : String)
    (nt : NotificationType) (target origin : Account) (sid : String)
    (n : Notification) (hlocal : target.IsRemote = false)
    (hgerr : env.getNotifErr = false)
    (hfind : getNotification db nt target.id origin.id sid = some n) :
    (Notify env db newID nt target origin sid).db = db := by
  simp [Notify, hlocal, hgerr, hfind]

/-- With the all-succeed oracle, a local target and no existing
notification, `Notify` persists exactly the new row. -/
theorem Notify_envOK_db_none (db : NotifDB) (newID : String)
    (nt : NotificationType) (target origin : Account) (sid : String)
    (hlocal : target.IsRemote = false)
    (hfind : getNotification db nt target.id origin.id sid = none) :
    (Notify envOK db newID nt target origin sid).db =
      putNotification db ⟨newID, nt, target.id, origin.id, sid⟩ := by
  simp [Notify, envOK, hlocal, hfind]

/-- With the all-succeed oracle and a local target, `Notify` returns
success. -/
theorem Notify_envOK_res (db : NotifDB) (newID : String)
    (nt : NotificationType) (target origin : Account) (sid : String)
    (hlocal : target.IsRemote = false) :
    (Notify envOK db newID nt target origin sid).res = .ok () := by
  rcases hfind : getNotification db nt target.id origin.id sid with _ | n <;>
    simp [Notify, envOK, hlocal, hfind]

/-- With the all-succeed oracle and a local target, after `Notify` exactly
one notification with the tuple of the call is persisted. -/
theorem Notify_envOK_count_self (db : NotifDB) (newID : String)
    (nt : NotificationType) (target origin : Account) (sid : String)
    (hlocal : target.IsRemote = false)
    (hcount : countNotifs db nt target.id origin.id sid ≤ 1) :
    countNotifs (Notify envOK db newID nt target origin sid).db
      nt target.id origin.id sid = 1 := by
  rcases hfind : getNotification db nt target.id origin.id sid with _ | n
  · rw [Notify_envOK_db_none db newID nt target origin sid hlocal hfind]
    have h0 := getNotification_none_countNotifs hfind
    rw [countNotifs_put, h0, if_pos (by simp [notifMatches])]
  · rw [Notify_db_some envOK db newID nt target origin sid n hlocal rfl hfind]
    obtain ⟨hmem, hp⟩ := getNotification_some_mem hfind
    have h1 : 1 ≤ countNotifs db nt target.id origin.id sid :=
      List.countP_pos_iff.mpr ⟨n, hmem, hp⟩
    omega

/-- A `Notify` call never changes the count of a tuple the created notification
does not carry. -/
theorem Notify_count_other (env : NotifyEnv) (db : NotifDB) (newID : String)
    (nt : NotificationType) (target origin : Account) (sid : String)
    (t : NotificationType) (a b s : String)
    (h : notifMatches t a b s ⟨newID, nt, target.id, origin.id, sid⟩ = false) :
    countNotifs (Notify env db newID nt target origin sid).db t a b s =
      countNotifs db t a b s := by
  unfold Notify
  split
  · rfl
  · split
    · rfl
    · rcases hfind : getNotification db nt target.id origin.id sid with _ | n
      · simp only [hfind]
        split
        · rfl
        · have hput : countNotifs (putNotification db
              ⟨newID, nt, target.id, origin.id, sid⟩) t a b s =
              countNotifs db t a b s := by
            rw [countNotifs_put, h]
            simp
          split
          · exact hput
          · split
            · exact hput
            · exact hput
      · simp only [hfind]

/-- C6: for an accepted follow with a local, fully populated target,
`notifyFollow` first looks the old follow-request notification up (a miss
is not an error), deletes it when present, and then creates the follow
notification; afterwards the pair carries zero follow-request
notifications and exactly one follow notification, and the call
succeeds. -/
theorem c6_follow_replaces_follow_request :
    ∀ (env : NotifyFollowEnv) (db : NotifDB) (newID : String) (follow : Follow),
      env.populateErr = false → env.getNotifErr = false → env.deleteErr = false →
      env.notifyEnv = envOK →
      follow.targetAccount.IsRemote = false →
      follow.targetAccount.id = follow.targetAccountID →
      follow.account.id = follow.accountID →
      dedupInv db →
      countNotifs (notifyFollow env db newID follow).db .followRequest
        follow.targetAccountID follow.accountID "" = 0 ∧
      countNotifs (notifyFollow env db newID follow).db .follow
        follow.targetAccountID follow.accountID "" = 1 ∧
      (notifyFollow env db newID follow).res = .ok () ∧
      (notifyFollow env db newID follow).trace.take 2 =
        [Event.populateCall "follow" follow.id,
         Event.getNotif .followRequest follow.targetAccountID follow.accountID ""] := by
  intro env db newID follow hpop hg hd hne hlocal htid hoid hinv
  unfold notifyFollow
  rw [← htid, ← hoid]
  simp only [hpop, Bool.false_eq_true, if_false, hlocal, hg]
  rcases hfind : getNotification db .followRequest follow.targetAccount.id
      follow.account.id "" with _ | prevNotif
  · simp only [hfind, hne]
    have hother : countNotifs
        (Notify envOK db newID .follow follow.targetAccount follow.account "").db
        .followRequest follow.targetAccount.id follow.account.id "" =
        countNotifs db .followRequest follow.targetAccount.id follow.account.id "" :=
      Notify_count_other envOK db newID .follow follow.targetAccount follow.account ""
        .followRequest follow.targetAccount.id follow.account.id ""
        (by simp [notifMatches])
    refine ⟨?_, ?_, ?_, ?_⟩
    · rw [hother, getNotification_none_countNotifs hfind]
    · exact Notify_envOK_count_self db newID .follow follow.targetAccount
        follow.account "" hlocal (hinv _ _ _ _)
    · rw [Notify_envOK_res db newID .follow follow.targetAccount follow.account "" hlocal]
      rfl
    · simp
  · simp only [hfind, hd, Bool.false_eq_true, if_false, hne]
    have hfr : countNotifs (deleteNotificationByID db prevNotif.id)
        .followRequest follow.targetAccount.id follow.account.id "" = 0 :=
      countNotifs_delete_found hfind (hinv _ _ _ _)
    have hother : countNotifs
        (Notify envOK (deleteNotificationByID db prevNotif.id) newID .follow
          follow.targetAccount follow.account "").db
        .followRequest follow.targetAccount.id follow.account.id "" =
        countNotifs (deleteNotificationByID db prevNotif.id)
          .followRequest follow.targetAccount.id follow.account.id "" :=
      Notify_count_other envOK _ newID .follow follow.targetAccount follow.account ""
        .followRequest follow.targetAccount.id follow.account.id ""
        (by simp [notifMatches])
    refine ⟨?_, ?_, ?_, ?_⟩
    · rw [hother, hfr]
    · exact Notify_envOK_count_self _ newID .follow follow.targetAccount
        follow.account "" hlocal
        (le_trans (countNotifs_delete_le prevNotif.id .follow
          follow.targetAccount.id follow.account.id "") (hinv _ _ _ _))
    · rw [Notify_envOK_res _ newID .follow follow.targetAccount follow.account "" hlocal]
      rfl
    · simp

/-- Witness for C6: a concrete accepted follow whose pair has a pending
follow-request notification. -/
theorem c6_follow_replaces_follow_request_witness :
    countNotifs
      (notifyFollow ⟨false, false, false, envOK⟩
        [⟨"NF", .followRequest, "01A", "01B", ""⟩] "N3"
        ⟨"F1", "01B", acctB, "01A", acctA⟩).db
      .followRequest "01A" "01B" "" = 0 ∧
    countNotifs
      (notifyFollow ⟨false, false, false, envOK⟩
        [⟨"NF", .followRequest, "01A", "01B", ""⟩] "N3"
        ⟨"F1", "01B", acctB, "01A", acctA⟩).db
      .follow "01A" "01B" "" = 1 ∧
    (notifyFollow ⟨false, false, false, envOK⟩
      [⟨"NF", .followRequest, "01A", "01B", ""⟩] "N3"
      ⟨"F1", "01B", acctB, "01A", acctA⟩).res = .ok () := by
  have h := c6_follow_replaces_follow_request ⟨false, false, false, envOK⟩
    [⟨"NF", .followRequest, "01A", "01B", ""⟩] "N3"
    ⟨"F1", "01B", acctB, "01A", acctA⟩
    rfl rfl rfl rfl (by decide) (by decide) (by decide)
    (by
      intro t a b s
      simpa [countNotifs] using
        List.countP_le_length (p := notifMatches t a b s)
          (l := [⟨"NF", .followRequest, "01A", "01B", ""⟩]))
  exact ⟨h.1, h.2.1, h.2.2.1⟩

/-- A `Notify` call never changes the number of notifications targeting an
account other than the target of the call. -/
theorem Notify_count_target_ne (env : NotifyEnv) (db : NotifDB) (newID : String)
    (nt : NotificationType) (target origin : Account) (sid : String) (a : String)
    (h : target.id ≠ a) :
    ((Notify env db newID nt target origin sid).db.countP
      (fun n => n.targetAccountID == a)) =
    db.countP (fun n => n.targetAccountID == a) := by
  unfold Notify
  split
  · rfl
  · split
    · rfl
    · rcases hfind : getNotification db nt target.id origin.id sid with _ | n
      · simp only [hfind]
        split
        · rfl
        · have hput : (putNotification db
              ⟨newID, nt, target.id, origin.id, sid⟩).countP
              (fun n => n.targetAccountID == a) =
              db.countP (fun n => n.targetAccountID == a) := by
            simp [putNotification, List.countP_append, List.countP_cons, h]
          split
          · exact hput
          · split <;> exact hput
      · simp only [hfind]

/-- The mention loop creates no notification targeting an account that has
the status thread muted. -/
theorem notifyMentionsGo_muted_count (env : SurfaceEnv) (mkID : String → String)
    (status : Status) (a : String)
    (hmuted : env.muted status.threadID a = true) :
    ∀ ms : List Mention, (∀ m ∈ ms, m.targetAccount.id = m.targetAccountID) →
    ∀ (db : NotifDB) (errs : List String) (tr : List Event),
      (notifyMentionsGo env mkID status ms db errs tr).1.countP
        (fun n => n.targetAccountID == a) =
      db.countP (fun n => n.targetAccountID == a) := by
  intro ms
  induction ms with
  | nil =>
      intro _ db errs tr
      rfl
  | cons m ms ih =>
      intro hpopd db errs tr
      have hrest : ∀ m' ∈ ms, m'.targetAccount.id = m'.targetAccountID :=
        fun m' hm' => hpopd m' (List.mem_cons_of_mem _ hm')
      unfold notifyMentionsGo
      split
      · exact ih hrest _ _ _
      · split
        · exact ih hrest _ _ _
        · split
          · exact ih hrest _ _ _
          · split
            · exact ih hrest _ _ _
            · rename_i hnm
              rw [ih hrest _ _ _]
              apply Notify_count_target_ne
              rw [hpopd m (List.mem_cons_self _ _)]
              intro hEq
              rw [hEq] at hnm
              exact hnm hmuted

/-- C9: a mention, fave or boost whose local target has muted the status
thread produces no notification: `notifyFave` and `notifyAnnounce` return
success with the table unchanged after the mute check, and the mention
loop leaves the count of notifications targeting the muted account
unchanged. -/
theorem c9_thread_mute_skips_notification :
    (∀ (env : SurfaceEnv) (db : NotifDB) (newID : String) (fave : StatusFave),
      env.populateErr = false → env.muteCheckErr = false →
      fave.targetAccountID ≠ fave.accountID →
      fave.targetAccount.IsRemote = false →
      env.muted fave.statusThreadID fave.targetAccountID = true →
      notifyFave env db newID fave =
        ⟨db, .ok (), [Event.populateCall "fave" fave.id,
          Event.muteCheck fave.statusThreadID fave.targetAccountID]⟩) ∧
    (∀ (env : SurfaceEnv) (db : NotifDB) (newID : String) (status : Status),
      env.populateErr = false → env.muteCheckErr = false →
      status.boostOfID ≠ "" →
      status.boostOfAccountID ≠ status.accountID →
      status.boostOfAccount.IsRemote = false →
      env.muted status.boostOfThreadID status.boostOfAccountID = true →
      notifyAnnounce env db newID status =
        ⟨db, .ok (), [Event.populateCall "status" status.id,
          Event.muteCheck status.boostOfThreadID status.boostOfAccountID]⟩) ∧
    (∀ (env : SurfaceEnv) (db : NotifDB) (mkID : String → String) (status : Status)
        (m : Mention),
      (∀ m' ∈ status.mentions, m'.targetAccount.id = m'.targetAccountID) →
      m ∈ status.mentions →
      env.muted status.threadID m.targetAccountID = true →
      (notifyMentions env db mkID status).db.countP
        (fun n => n.targetAccountID == m.targetAccountID) =
      db.countP (fun n => n.targetAccountID == m.targetAccountID)) := by
  refine ⟨?_, ?_, ?_⟩
  · intro env db newID fave hpop hmc hne hlocal hmute
    simp [notifyFave, hpop, hmc, hne, hlocal, hmute]
  · intro env db newID status hpop hmc hb hne hlocal hmute
    simp [notifyAnnounce, hpop, hmc, hb, hne, hlocal, hmute]
  · intro env db mkID status m hpopd hmem hmute
    have h := notifyMentionsGo_muted_count env mkID status m.targetAccountID hmute
      status.mentions hpopd db [] []
    simpa [notifyMentions] using h

/-- The thread-mute table used by the witnesses: thread T1 is muted by
account 01A. -/
def mutedT1A : String → String → Bool :=
  fun t a => t == "T1" && a == "01A"

/-- A boost by `acctB` of a status of `acctA` in thread T1. -/
def demoBoost : Status :=
  ⟨"S2", "https://example.org/statuses/s2", "01B", acctB, "T2",
   "", "S0", "01A", acctA, "T1", []⟩

/-- A status of `acctB` in thread T1 mentioning `acctA`. -/
def demoMentionStatus : Status :=
  ⟨"S3", "https://example.org/statuses/s3", "01B", acctB, "T1",
   "", "", "", acctB, "", [⟨"M1", "S3", "01A", acctA, acctB⟩]⟩

/-- Witness for C9 at concrete inputs. -/
theorem c9_thread_mute_skips_notification_witness :
    notifyFave ⟨false, false, mutedT1A, envOK⟩ [] "N4"
        ⟨"FV1", "01B", acctB, "01A", acctA, "S1", "T1"⟩ =
      ⟨[], .ok (), [Event.populateCall "fave" "FV1", Event.muteCheck "T1" "01A"]⟩ ∧
    notifyAnnounce ⟨false, false, mutedT1A, envOK⟩ [] "N5" demoBoost =
      ⟨[], .ok (), [Event.populateCall "status" "S2", Event.muteCheck "T1" "01A"]⟩ ∧
    (notifyMentions ⟨false, false, mutedT1A, envOK⟩ [] id demoMentionStatus).db.countP
        (fun n => n.targetAccountID == "01A") =
      ([] : NotifDB).countP (fun n => n.targetAccountID == "01A") := by
  refine ⟨?_, ?_, ?_⟩
  · exact c9_thread_mute_skips_notification.1 ⟨false, false, mutedT1A, envOK⟩ [] "N4"
      ⟨"FV1", "01B", acctB, "01A", acctA, "S1", "T1"⟩
      rfl rfl (by decide) (by decide) (by decide)
  · exact c9_thread_mute_skips_notification.2.1 ⟨false, false, mutedT1A, envOK⟩ [] "N5"
      demoBoost rfl rfl (by decide) (by decide) (by decide) (by decide)
  · exact c9_thread_mute_skips_notification.2.2 ⟨false, false, mutedT1A, envOK⟩ [] id
      demoMentionStatus ⟨"M1", "S3", "01A", acctA, acctB⟩
      (by decide) (by decide) (by decide)

/-- C10: self-interactions never notify: `notifyFave` is a success no-op
when the faver authored the faved status, and `notifyAnnounce` is a
success no-op when the status is not a boost or when the booster is the
author of the boosted status. -/
theorem c10_self_interaction_no_notification :
    (∀ (env : SurfaceEnv) (db : NotifDB) (newID : String) (fave : StatusFave),
      fave.targetAccountID = fave.accountID →
      notifyFave env db newID fave = ⟨db, .ok (), []⟩) ∧
    (∀ (env : SurfaceEnv) (db : NotifDB) (newID : String) (status : Status),
      status.boostOfID = "" →
      notifyAnnounce env db newID status = ⟨db, .ok (), []⟩) ∧
    (∀ (env : SurfaceEnv) (db : NotifDB) (newID : String) (status : Status),
      status.boostOfAccountID = status.accountID →
      notifyAnnounce env db newID status = ⟨db, .ok (), []⟩) := by
  refine ⟨?_, ?_, ?_⟩
  · intro env db newID fave h
    simp [notifyFave, h]
  · intro env db newID status h
    simp [notifyAnnounce, h]
  · intro env db newID status h
    simp [notifyAnnounce, h]

/-- A self-boost: `acctB` boosting its own status. -/
def demoSelfBoost : Status :=
  ⟨"S4", "https://example.org/statuses/s4", "01B", acctB, "T2",
   "", "S0", "01B", acctB, "T1", []⟩

/-- Witness for C10 at concrete inputs. -/
theorem c10_self_interaction_no_notification_witness :
    notifyFave ⟨false, false, mutedT1A, envOK⟩ [] "N6"
        ⟨"FV2", "01B", acctB, "01B", acctB, "S1", "T1"⟩ = ⟨[], .ok (), []⟩ ∧
    notifyAnnounce ⟨false, false, mutedT1A, envOK⟩ [] "N7" demoStatus =
      ⟨[], .ok (), []⟩ ∧
    notifyAnnounce ⟨false, false, mutedT1A, envOK⟩ [] "N8" demoSelfBoost =
      ⟨[], .ok (), []⟩ := by
  refine ⟨?_, ?_, ?_⟩
  · exact c10_self_interaction_no_notification.1 ⟨false, false, mutedT1A, envOK⟩ []
      "N6" ⟨"FV2", "01B", acctB, "01B", acctB, "S1", "T1"⟩ rfl
  · exact c10_self_interaction_no_notification.2.1 ⟨false, false, mutedT1A, envOK⟩ []
      "N7" demoStatus rfl
  · exact c10_self_interaction_no_notification.2.2 ⟨false, false, mutedT1A, envOK⟩ []
      "N8" demoSelfBoost rfl

end GtS
